import Mathlib

/-!
Verification development for the streaming session gateway of the
open_deep_research backend (src/ui/backend/server.py).

The Python source is shallowly embedded below.  Python strings are Lean
`String`s; character-indexed slicing (`s[:n]`, `len(s)`) is modelled on the
underlying `List Char` (`String.data`), matching Python's code-point
semantics.  The sqlite database is a pair of row lists; each helper opens a
fresh connection and never issues `PRAGMA foreign_keys=ON`, so the declared
FOREIGN KEY on `messages.chat_id` is *not* enforced by sqlite: the model's
`save_message` therefore inserts unconditionally, exactly as the running
code does.  The async receive loop of `websocket_endpoint` awaits
`handle_research_message` before reading the next frame, so one connection
processes frames strictly sequentially; `runConn` folds the frame list in
that order.  Nondeterministic inputs (uuid4, datetime.now) are threaded as
an explicit environment, and the external engine (`deep_researcher.ainvoke`)
is an explicit parameter carrying the events it streams through the
callback handler and its final result or raised exception.
-/

/-- Rows of the `chats` table (see `init_db`). -/
structure ChatRow where
  id : String
  title : String
  created_at : String
  updated_at : String
deriving DecidableEq

/-- Rows of the `messages` table (see `init_db`). -/
structure MessageRow where
  id : String
  chat_id : String
  role : String
  content : String
  timestamp : String
  report_path : Option String
deriving DecidableEq

/-- The sqlite database `research_chats.db`: the two tables created by `init_db`. -/
structure DB where
  chats : List ChatRow
  messages : List MessageRow
deriving DecidableEq

/-- The report archive: the files written under `research_reports/`,
keyed by the path returned by `save_report`. -/
abbrev Archive := List (String × String)

/-- Read an archived report body by path (the `/api/reports/` lookup). -/
def archiveRead (a : Archive) (p : String) : Option String :=
  (a.find? fun e => e.1 == p).map (·.2)

/-- Per-connection session state, mirroring class `SessionState`.
`accumulated_tokens` models the `deque(maxlen=1000)` field. -/
structure SessionState where
  current_query : String
  is_researching : Bool
  research_status : String
  chat_id : Option String
  notes : List String
  final_report : String
  accumulated_tokens : List String
deriving DecidableEq

/-- `SessionState.__init__`: the state created when a websocket connects. -/
def initSession : SessionState :=
  { current_query := "", is_researching := false, research_status := "",
    chat_id := none, notes := [], final_report := "", accumulated_tokens := [] }

/-- Mutable state of `StreamingCallbackHandler` (`current_tool`, `buffer`). -/
structure HandlerState where
  current_tool : Option String
  buffer : List String
deriving DecidableEq

/-- `StreamingCallbackHandler.__init__` field values. -/
def initHandler : HandlerState := { current_tool := none, buffer := [] }

/-- Outbound frames sent with `websocket.send_json`, one constructor per
distinct payload shape appearing in the source. -/
inductive OutEvent where
  | state (chat_id : Option String) (is_researching : Bool) (research_status : String)
  | research_started (query : String)
  | research_completed (report : String) (report_path : String)
  | stream_start (sender : String)
  | stream_end (sender : String)
  | stream (message_type : String) (content : String)
  | token (content : String)
  | message (sender : String) (text : String)
deriving DecidableEq

/-- Database writes performed by the gateway, recorded in the observable trace. -/
inductive DbOp where
  | createChat (id : String) (title : String)
  | appendMessage (chat_id : String) (role : String) (content : String)
      (report_path : Option String)
deriving DecidableEq

/-- One observable step of a connection: an outbound frame, a database
write, or the session's `is_researching` flag flipping false→true
(`beginResearch`) or true→false (`endResearch`). -/
inductive TraceItem where
  | out (e : OutEvent)
  | db (op : DbOp)
  | beginResearch
  | endResearch
deriving DecidableEq

/-- Result of one engine invocation: the final `result` dict of
`deep_researcher.ainvoke`, or the exception it raised. -/
inductive EngineResult where
  | ok (final_report : String) (notes : List String)
  | err (msg : String)
deriving DecidableEq

/-- One engine invocation: the events its callbacks push through the
websocket while it runs, and how it finishes. -/
structure EngineRun where
  streamed : List OutEvent
  result : EngineResult
deriving DecidableEq

/-- Values drawn from uuid4/datetime.now during one frame's processing. -/
structure RunEnv where
  new_chat_id : String
  user_msg_id : String
  asst_msg_id : String
  now : String
  ts : String
  date : String
deriving DecidableEq

/-- Python `str(None)` / `str(s)` for the handler's `current_tool` field. -/
def pyShowOpt : Option String → String
  | none => "None"
  | some s => s

/-- Python truthiness of an optional string (`if chat_id:`):
absent and empty are falsy. -/
def pyTruthy : Option String → Bool
  | none => false
  | some s => s != ""

/-- Characters removed by Python `str.strip()` (ASCII whitespace). -/
def isPySpace (c : Char) : Bool :=
  c = ' ' || c = '\t' || c = '\n' || c = '\r' || c = '\x0b' || c = '\x0c'

/-- Python `str.strip()`. -/
def pyStrip (s : String) : String :=
  String.mk (((s.data.dropWhile isPySpace).reverse.dropWhile isPySpace).reverse)

/-- Title derivation on first user query (line 293):
`query[:50] + "..." if len(query) > 50 else query`. -/
def deriveTitle (q : String) : String :=
  if q.length > 50 then String.mk (q.data.take 50) ++ "..." else q

/-- `save_chat`: INSERT INTO chats. -/
def save_chat (db : DB) (chat_id title now : String) : DB :=
  { db with chats := db.chats ++ [⟨chat_id, title, now, now⟩] }

/-- `save_message`: INSERT INTO messages, then UPDATE chats.updated_at.
The connection never enables `PRAGMA foreign_keys`, so sqlite leaves the
declared FOREIGN KEY unenforced and the INSERT succeeds even when no chat
row with `chat_id` exists; the UPDATE then matches zero rows. -/
def save_message (db : DB) (message_id chat_id role content now : String)
    (report_path : Option String) : DB :=
  { chats := db.chats.map fun ch =>
      if ch.id = chat_id then { ch with updated_at := now } else ch,
    messages :=
      db.messages ++ [⟨message_id, chat_id, role, content, now, report_path⟩] }

/-- The path `save_report` returns: `str(REPORTS_DIR / f"report_{chat_id}_{timestamp}.md")`
(braces here quote the Python f-string). -/
def reportFilepath (chat_id ts : String) : String :=
  "research_reports/report_" ++ chat_id ++ "_" ++ ts ++ ".md"

/-- The structured header `save_report` writes before the report body. -/
def reportHeader (query date chat_id : String) : String :=
  "# Research Report\n\n**Query**: " ++ query ++ "\n\n**Date**: " ++ date ++
  "\n\n**Chat ID**: " ++ chat_id ++ "\n\n---\n\n"

/-- The assistant transcript persisted on normal completion (line 363). -/
def transcriptOf (report : String) : String :=
  "Research process completed. Final report:\n\n" ++ report

/-- The marker `on_tool_end` appends when truncating. -/
def truncMarker : String := "\n... (truncated)"

/-- The tool-output body after the truncation policy of `on_tool_end`
(lines 170-171): outputs longer than 1000 characters are cut to their
first 1000 characters with the marker appended. -/
def renderToolOutput (output : String) : String :=
  if output.length > 1000 then String.mk (output.data.take 1000) ++ truncMarker
  else output

/-- `StreamingCallbackHandler.on_tool_end`: emits the header line and the
fenced (possibly truncated) output, then clears `current_tool`. -/
def on_tool_end (h : HandlerState) (output : String) :
    HandlerState × List OutEvent :=
  ({ h with current_tool := none },
   [ .stream "tool_output_header"
       ("\n📤 **Tool Output (" ++ pyShowOpt h.current_tool ++ "):**"),
     .stream "tool_output" ("```\n" ++ renderToolOutput output ++ "\n```\n") ])

/-- `StreamingCallbackHandler.on_llm_new_token`: sends the token frame and
appends to the handler's own `self.buffer` list.  The session object is
reachable through `self.session` but is not touched here (in particular
`accumulated_tokens` is not written). -/
def on_llm_new_token (h : HandlerState) (s : SessionState) (tok : String) :
    HandlerState × SessionState × List OutEvent :=
  ({ h with buffer := h.buffer ++ [tok] }, s, [.token tok])

/-- A sequence of `on_llm_new_token` callbacks, in arrival order. -/
def runTokens : List String → HandlerState → SessionState →
    HandlerState × SessionState × List OutEvent
  | [], h, s => (h, s, [])
  | tok :: rest, h, s =>
      let step := on_llm_new_token h s tok
      let r := runTokens rest step.1 step.2.1
      (r.1, r.2.1, step.2.2 ++ r.2.2)

/-- The chat id `handle_research_message` works with: the session's bound
id, or the fresh uuid when none is bound (lines 290-291). -/
def effectiveChatId (env : RunEnv) (s : SessionState) : String :=
  match s.chat_id with
  | none => env.new_chat_id
  | some c => c

/-- Result of one `handle_research_message` call. -/
structure HandleOut where
  session : SessionState
  db : DB
  archive : Archive
  trace : List TraceItem
deriving DecidableEq

/-- The chat-creation write performed on first query (lines 290-293),
empty when the session already has a bound chat. -/
def handleChatOps (env : RunEnv) (query : String) (s : SessionState) : List TraceItem :=
  if s.chat_id = none
  then [.db (.createChat (effectiveChatId env s) (deriveTitle query))] else []

/-- Everything observable between the two `is_researching` assignments of
`handle_research_message`: chat creation, the user-message insert, the
initial state/event/stream frames, and whatever the engine streams while
it runs (lines 289-334). -/
def handleMid (env : RunEnv) (run : EngineRun) (query : String)
    (s : SessionState) : List TraceItem :=
  handleChatOps env query s ++
    ([.db (.appendMessage (effectiveChatId env s) "user" query none),
      .out (.state (some (effectiveChatId env s)) true "Starting research..."),
      .out (.research_started query),
      .out (.stream_start "assistant"),
      .out (.stream "header" ("# 🔍 Research Query: " ++ query ++ "\n\n")),
      .out (.stream "info" "Starting deep research process...\n")] ++
     run.streamed.map TraceItem.out)

/-- Observable actions after `is_researching` is reset on normal
completion (lines 346-379). -/
def handleTailOk (cid path report : String) : List TraceItem :=
  [.out (.stream "report_header" "\n---\n\n# 📊 Final Research Report\n\n"),
   .out (.stream "report_content" report)] ++
  (if path = "" then []
   else [.out (.stream "report_saved" ("\n\n📄 *Report saved to: " ++ path ++ "*"))]) ++
  [.out (.stream_end "assistant"),
   .db (.appendMessage cid "assistant" (transcriptOf report) (some path)),
   .out (.research_completed report path)]

/-- Observable actions after `is_researching` is reset in the `except`
branch (lines 381-394). -/
def handleTailErr (cid m : String) : List TraceItem :=
  [.out (.stream "error" ("\n❌ **Error:** " ++ m ++ "\n")),
   .out (.stream_end "assistant"),
   .db (.appendMessage cid "assistant" ("Error during research: " ++ m) none)]

/-- `handle_research_message` (lines 281-394), as a function of the engine
invocation's behaviour.  The trace lists the observable actions in source
order; `beginResearch`/`endResearch` mark the two assignments to
`session.is_researching`. -/
def handle_research_message (env : RunEnv) (run : EngineRun) (query : String)
    (s : SessionState) (db : DB) (ar : Archive) : HandleOut :=
  let cid := effectiveChatId env s
  let db1 := if s.chat_id = none then save_chat db cid (deriveTitle query) env.now else db
  let db2 := save_message db1 env.user_msg_id cid "user" query env.now none
  let s2 : SessionState :=
    { s with current_query := query, is_researching := true,
             research_status := "Starting research...", chat_id := some cid }
  match run.result with
  | .ok report notes =>
      let path := reportFilepath cid env.ts
      let sOk : SessionState :=
        { s2 with final_report := report, notes := notes, is_researching := false,
                  research_status := "Research complete!" }
      { session := sOk,
        db := save_message db2 env.asst_msg_id cid "assistant"
                (transcriptOf report) env.now (some path),
        archive := (path, reportHeader query env.date cid ++ report) :: ar,
        trace := TraceItem.beginResearch ::
          (handleMid env run query s ++
            TraceItem.endResearch :: handleTailOk cid path report) }
  | .err m =>
      let sErr : SessionState :=
        { s2 with is_researching := false, research_status := "Error: " ++ m }
      { session := sErr,
        db := save_message db2 env.asst_msg_id cid "assistant"
                ("Error during research: " ++ m) env.now none,
        archive := ar,
        trace := TraceItem.beginResearch ::
          (handleMid env run query s ++
            TraceItem.endResearch :: handleTailErr cid m) }

/-- A decoded inbound JSON frame: the fields `websocket_endpoint` reads.
`none` models an absent key. -/
structure InFrame where
  ftype : Option String
  sender : Option String
  text : Option String
  chat_id : Option String
deriving DecidableEq

/-- An inbound websocket frame: either valid JSON, or a frame on which
`websocket.receive_json` raises. -/
inductive InMsg where
  | malformed
  | json (f : InFrame)
deriving DecidableEq

/-- State of one live connection. `closed` records that the gateway itself
closed the socket from the outer `except Exception` handler. -/
structure ConnState where
  session : SessionState
  db : DB
  archive : Archive
  closed : Bool
deriving DecidableEq

/-- Dispatch of one valid inbound frame (the body of the `while True`
loop of `websocket_endpoint`, lines 446-476). -/
def processFrame (env : RunEnv) (run : EngineRun) (f : InFrame) (c : ConnState) :
    ConnState × List TraceItem :=
  if f.ftype = some "select_chat" then
    match f.chat_id with
    | some cid =>
        if cid = "" then (c, [])
        else ({ c with session := { c.session with chat_id := some cid } },
              [.out (.state (some cid) false "")])
    | none => (c, [])
  else if f.ftype = some "message" ∧ f.sender = some "user" then
    let query := pyStrip (f.text.getD "")
    let s1 := if pyTruthy f.chat_id then { c.session with chat_id := f.chat_id }
              else c.session
    if query = "" then
      ({ c with session := s1 },
       [.out (.message "assistant" "Please provide a research query.")])
    else
      let h := handle_research_message env run query s1 c.db c.archive
      ({ c with session := h.session, db := h.db, archive := h.archive }, h.trace)
  else (c, [])

/-- The receive loop of `websocket_endpoint`: frames are handled strictly
one after another (the loop awaits `handle_research_message` before the
next `receive_json`).  A malformed frame makes `receive_json` raise; the
outer handler prints and closes the websocket, ending the loop. -/
def runConn : List (InMsg × RunEnv × EngineRun) → ConnState →
    ConnState × List TraceItem
  | [], c => (c, [])
  | (.malformed, _, _) :: _, c => ({ c with closed := true }, [])
  | (.json f, env, run) :: rest, c =>
      let p := processFrame env run f c
      let r := runConn rest p.1
      (r.1, p.2 ++ r.2)

/-! Counting research activations in a trace. -/

/-- Does a trace item mark `is_researching` flipping false→true? -/
def isBegin : TraceItem → Bool
  | .beginResearch => true
  | _ => false

/-- Does a trace item mark `is_researching` flipping true→false? -/
def isEnd : TraceItem → Bool
  | .endResearch => true
  | _ => false

/-- Number of research activations in a trace. -/
def beginCount (t : List TraceItem) : Nat := t.countP isBegin

/-- Number of research completions (normal or error) in a trace. -/
def endCount (t : List TraceItem) : Nat := t.countP isEnd

/-- A trace with no research activation or completion markers. -/
def mFree (t : List TraceItem) : Prop := beginCount t = 0 ∧ endCount t = 0

/-- The single-in-flight discipline over a trace: runs balance out, no
instant has more completions than activations nor more than one
activation outstanding, and an activation happens only at instants where
every earlier activation has completed. -/
def balancedPrefixes (t : List TraceItem) : Prop :=
  beginCount t = endCount t ∧
  (∀ i, endCount (t.take i) ≤ beginCount (t.take i) ∧
        beginCount (t.take i) ≤ endCount (t.take i) + 1) ∧
  (∀ i, beginCount (t.take i) + 1 = beginCount (t.take (i + 1)) →
        beginCount (t.take i) = endCount (t.take i))

/-! Concrete sample inputs used by witnesses and counterexamples. -/

/-- An empty database. -/
def db0 : DB := { chats := [], messages := [] }

/-- A fresh connection over an empty store. -/
def conn0 : ConnState :=
  { session := initSession, db := db0, archive := [], closed := false }

/-- A sample draw of uuids and timestamps. -/
def env0 : RunEnv :=
  { new_chat_id := "chat-1", user_msg_id := "mu", asst_msg_id := "ma",
    now := "T0", ts := "TS", date := "D0" }

/-- A sample engine invocation that streams nothing and succeeds. -/
def runOk0 : EngineRun := { streamed := [], result := .ok "REPORT" [] }

/-- A sample engine invocation that raises. -/
def runErr0 : EngineRun := { streamed := [], result := .err "boom" }

/-! Basic facts about the marker predicates and counts. -/

@[simp] theorem isBegin_out (e : OutEvent) : isBegin (.out e) = false := rfl

@[simp] theorem isBegin_db (o : DbOp) : isBegin (.db o) = false := rfl

@[simp] theorem isBegin_endMark : isBegin .endResearch = false := rfl

@[simp] theorem isBegin_beginMark : isBegin .beginResearch = true := rfl

@[simp] theorem isEnd_out (e : OutEvent) : isEnd (.out e) = false := rfl

@[simp] theorem isEnd_db (o : DbOp) : isEnd (.db o) = false := rfl

@[simp] theorem isEnd_endMark : isEnd .endResearch = true := rfl

@[simp] theorem isEnd_beginMark : isEnd .beginResearch = false := rfl

theorem beginCount_append (x y : List TraceItem) :
    beginCount (x ++ y) = beginCount x + beginCount y :=
  List.countP_append isBegin x y

theorem endCount_append (x y : List TraceItem) :
    endCount (x ++ y) = endCount x + endCount y :=
  List.countP_append isEnd x y

theorem beginCount_cons (x : TraceItem) (t : List TraceItem) :
    beginCount (x :: t) = beginCount t + if isBegin x then 1 else 0 :=
  List.countP_cons isBegin x t

theorem endCount_cons (x : TraceItem) (t : List TraceItem) :
    endCount (x :: t) = endCount t + if isEnd x then 1 else 0 :=
  List.countP_cons isEnd x t

theorem beginCount_take_le (t : List TraceItem) (i : Nat) :
    beginCount (t.take i) ≤ beginCount t :=
  (List.take_sublist i t).countP_le isBegin

theorem endCount_take_le (t : List TraceItem) (i : Nat) :
    endCount (t.take i) ≤ endCount t :=
  (List.take_sublist i t).countP_le isEnd

theorem mFree_nil : mFree [] := ⟨rfl, rfl⟩

theorem mFree_append {a b : List TraceItem} (ha : mFree a) (hb : mFree b) :
    mFree (a ++ b) := by
  obtain ⟨ha1, ha2⟩ := ha
  obtain ⟨hb1, hb2⟩ := hb
  exact ⟨by rw [beginCount_append, ha1, hb1], by rw [endCount_append, ha2, hb2]⟩

theorem mFree_map_out (l : List OutEvent) : mFree (l.map TraceItem.out) := by
  constructor <;>
    simp [beginCount, endCount, List.countP_map, Function.comp_def]

theorem mFree_ite {p : Prop} [Decidable p] {a b : List TraceItem}
    (ha : mFree a) (hb : mFree b) : mFree (if p then a else b) := by
  split
  · exact ha
  · exact hb

/-! The single-in-flight trace discipline. -/

theorem bp_nil : balancedPrefixes [] := by
  refine ⟨rfl, fun i => ?_, fun i h => ?_⟩
  · simp [beginCount, endCount]
  · simp [beginCount, endCount] at h

theorem bp_of_mFree {t : List TraceItem} (h : mFree t) : balancedPrefixes t := by
  obtain ⟨hb, he⟩ := h
  have hbt : ∀ i, beginCount (t.take i) = 0 := fun i =>
    Nat.le_zero.mp (hb ▸ beginCount_take_le t i)
  have het : ∀ i, endCount (t.take i) = 0 := fun i =>
    Nat.le_zero.mp (he ▸ endCount_take_le t i)
  refine ⟨by omega, fun i => ?_, fun i h => ?_⟩
  · rw [hbt i, het i]; omega
  · rw [hbt i, het i]

theorem bp_append {a b : List TraceItem}
    (ha : balancedPrefixes a) (hb : balancedPrefixes b) :
    balancedPrefixes (a ++ b) := by
  obtain ⟨ha0, ha1, ha2⟩ := ha
  obtain ⟨hb0, hb1, hb2⟩ := hb
  refine ⟨?_, fun i => ?_, fun i h => ?_⟩
  · rw [beginCount_append, endCount_append, ha0, hb0]
  · rcases le_or_lt i a.length with hle | hgt
    · have h0 : i - a.length = 0 := by omega
      rw [List.take_append_eq_append_take, h0]
      simpa using ha1 i
    · rw [List.take_append_eq_append_take,
          List.take_of_length_le (by omega : a.length ≤ i),
          beginCount_append, endCount_append]
      have := hb1 (i - a.length)
      omega
  · rcases Nat.lt_or_ge i a.length with hlt | hge
    · have h0 : i - a.length = 0 := by omega
      have h0' : i + 1 - a.length = 0 := by omega
      rw [List.take_append_eq_append_take, List.take_append_eq_append_take,
          h0, h0'] at h
      simp only [List.take_zero, List.append_nil] at h
      have := ha2 i h
      rw [List.take_append_eq_append_take, h0]
      simpa using this
    · have hA : a.take i = a := List.take_of_length_le (by omega)
      have hA' : a.take (i + 1) = a := List.take_of_length_le (by omega)
      have hsub : i + 1 - a.length = (i - a.length) + 1 := by omega
      rw [List.take_append_eq_append_take, List.take_append_eq_append_take,
          hA, hA', hsub, beginCount_append, beginCount_append] at h
      have hj := hb2 (i - a.length) (by omega)
      rw [List.take_append_eq_append_take,
          List.take_of_length_le (by omega : a.length ≤ i),
          beginCount_append, endCount_append]
      omega

theorem bp_block {mid tail : List TraceItem} (hm : mFree mid) (ht : mFree tail) :
    balancedPrefixes
      (TraceItem.beginResearch :: (mid ++ TraceItem.endResearch :: tail)) := by
  obtain ⟨hm1, hm2⟩ := hm
  obtain ⟨ht1, ht2⟩ := ht
  have hbr : beginCount (mid ++ TraceItem.endResearch :: tail) = 0 := by
    rw [beginCount_append, beginCount_cons, hm1, ht1]; simp
  have her : endCount (mid ++ TraceItem.endResearch :: tail) = 1 := by
    rw [endCount_append, endCount_cons, hm2, ht2]; simp
  have hbrt : ∀ j, beginCount ((mid ++ TraceItem.endResearch :: tail).take j) = 0 :=
    fun j => Nat.le_zero.mp (hbr ▸ beginCount_take_le _ j)
  have hert : ∀ j, endCount ((mid ++ TraceItem.endResearch :: tail).take j) ≤ 1 :=
    fun j => her ▸ endCount_take_le _ j
  refine ⟨?_, fun i => ?_, fun i h => ?_⟩
  · rw [beginCount_cons, endCount_cons, hbr, her]; simp
  · cases i with
    | zero => simp [beginCount, endCount]
    | succ j =>
        rw [List.take_succ_cons, beginCount_cons, endCount_cons]
        have h1 := hbrt j
        have h2 := hert j
        simp only [isBegin_beginMark, isEnd_beginMark]
        simp
        omega
  · cases i with
    | zero => simp [beginCount, endCount]
    | succ j =>
        rw [List.take_succ_cons, List.take_succ_cons,
            beginCount_cons, beginCount_cons] at h
        have h1 := hbrt j
        have h2 := hbrt (j + 1)
        simp only [isBegin_beginMark, if_pos rfl] at h
        omega

theorem mFree_handleMid (env : RunEnv) (run : EngineRun) (query : String)
    (s : SessionState) : mFree (handleMid env run query s) := by
  unfold handleMid handleChatOps
  apply mFree_append
  · apply mFree_ite
    · constructor <;> simp [beginCount, endCount]
    · exact mFree_nil
  · apply mFree_append
    · constructor <;> simp [beginCount, endCount]
    · exact mFree_map_out _

theorem mFree_handleTailOk (cid path report : String) :
    mFree (handleTailOk cid path report) := by
  unfold handleTailOk
  apply mFree_append
  · apply mFree_append
    · constructor <;> simp [beginCount, endCount]
    · apply mFree_ite
      · exact mFree_nil
      · constructor <;> simp [beginCount, endCount]
  · constructor <;> simp [beginCount, endCount]

theorem mFree_handleTailErr (cid m : String) : mFree (handleTailErr cid m) := by
  unfold handleTailErr
  constructor <;> simp [beginCount, endCount]

theorem bp_handle (env : RunEnv) (run : EngineRun) (query : String)
    (s : SessionState) (db : DB) (ar : Archive) :
    balancedPrefixes (handle_research_message env run query s db ar).trace := by
  obtain ⟨st, res⟩ := run
  cases res with
  | ok report notes =>
      exact bp_block (mFree_handleMid _ _ _ _) (mFree_handleTailOk _ _ _)
  | err m =>
      exact bp_block (mFree_handleMid _ _ _ _) (mFree_handleTailErr _ _)

theorem bp_processFrame (env : RunEnv) (run : EngineRun) (f : InFrame)
    (c : ConnState) : balancedPrefixes (processFrame env run f c).2 := by
  unfold processFrame
  dsimp only
  repeat' split
  all_goals first
    | exact bp_nil
    | apply bp_handle
    | exact bp_of_mFree (by constructor <;> simp [beginCount, endCount])

theorem handle_research_false (env : RunEnv) (run : EngineRun) (query : String)
    (s : SessionState) (db : DB) (ar : Archive) :
    (handle_research_message env run query s db ar).session.is_researching = false := by
  obtain ⟨st, res⟩ := run
  cases res <;> rfl

theorem processFrame_research_false (env : RunEnv) (run : EngineRun) (f : InFrame)
    (c : ConnState) (h : c.session.is_researching = false) :
    (processFrame env run f c).1.session.is_researching = false := by
  unfold processFrame
  dsimp only
  repeat' split
  all_goals first
    | exact h
    | apply handle_research_false

theorem processFrame_closed (env : RunEnv) (run : EngineRun) (f : InFrame)
    (c : ConnState) : (processFrame env run f c).1.closed = c.closed := by
  unfold processFrame
  dsimp only
  repeat' split
  all_goals rfl

theorem bp_runConn (msgs : List (InMsg × RunEnv × EngineRun)) (c : ConnState) :
    balancedPrefixes (runConn msgs c).2 := by
  induction msgs generalizing c with
  | nil => exact bp_nil
  | cons m rest ih =>
      obtain ⟨msg, env, run⟩ := m
      cases msg with
      | malformed => exact bp_nil
      | json f => exact bp_append (bp_processFrame env run f c) (ih _)

theorem runConn_research_false (msgs : List (InMsg × RunEnv × EngineRun))
    (c : ConnState) (h : c.session.is_researching = false) :
    (runConn msgs c).1.session.is_researching = false := by
  induction msgs generalizing c with
  | nil => exact h
  | cons m rest ih =>
      obtain ⟨msg, env, run⟩ := m
      cases msg with
      | malformed => exact h
      | json f => exact ih _ (processFrame_research_false env run f c h)

/-! Claim theorems. -/

/-- C5: the claim says `save_message` fails with `UnknownChat` when the chat
id references no existing chat row.  The code does not: it never enables
sqlite foreign-key enforcement, so the INSERT succeeds.  Evaluated at the
failing input (empty `chats` table, chat id "ghost"), the message row is
inserted, the chats table stays empty, and no chat with that id exists. -/
theorem c5_unknown_chat_insert_succeeds :
    (save_message db0 "m1" "ghost" "user" "hi" "T0" none).messages =
      [⟨"m1", "ghost", "user", "hi", "T0", none⟩] ∧
    (save_message db0 "m1" "ghost" "user" "hi" "T0" none).chats = [] ∧
    ¬ ∃ ch ∈ db0.chats, ch.id = "ghost" := by
  refine ⟨rfl, rfl, ?_⟩
  simp [db0]

/-- C6: the tool-output event rendered by `on_tool_end` carries the output
unchanged when it has at most 1000 characters; when longer, the rendered
body is exactly the first 1000 characters of the output followed by exactly
one truncation marker, regardless of the length. -/
theorem c6_tool_output_truncation (h : HandlerState) (o : String) :
    (on_tool_end h o).2 =
      [OutEvent.stream "tool_output_header"
         ("\n📤 **Tool Output (" ++ pyShowOpt h.current_tool ++ "):**"),
       OutEvent.stream "tool_output" ("```\n" ++ renderToolOutput o ++ "\n```\n")] ∧
    (1000 < o.length →
      (renderToolOutput o).data = o.data.take 1000 ++ truncMarker.data ∧
      (o.data.take 1000).length = 1000) ∧
    (o.length ≤ 1000 → renderToolOutput o = o) := by
  refine ⟨rfl, fun hgt => ⟨?_, ?_⟩, fun hle => ?_⟩
  · unfold renderToolOutput
    rw [if_pos hgt]
    rfl
  · have hlen : o.length = o.data.length := rfl
    rw [List.length_take]
    omega
  · unfold renderToolOutput
    rw [if_neg (by omega)]

/-- Witness for C6 at a 1001-character output and at a short output. -/
theorem c6_tool_output_truncation_witness :
    (renderToolOutput (String.mk (List.replicate 1001 'a'))).data =
      (List.replicate 1001 'a').take 1000 ++ truncMarker.data ∧
    renderToolOutput "short" = "short" := by
  constructor
  · have hl : (String.mk (List.replicate 1001 'a')).length = 1001 := by
      show (List.replicate 1001 'a').length = 1001
      exact List.length_replicate 1001 'a'
    exact ((c6_tool_output_truncation initHandler
      (String.mk (List.replicate 1001 'a'))).2.1 (by omega)).1
  · exact (c6_tool_output_truncation initHandler "short").2.2 (by decide)

/-- C7: on a first user message in a session with no bound chat id, the new
chat row is created — titled with the derived title — strictly before the
user message row is persisted; the derived title is the query itself when
the query has at most 50 characters, else its 50-character prefix followed
by the ellipsis marker. -/
theorem c7_first_message_title
    (env : RunEnv) (run : EngineRun) (query : String) (s : SessionState)
    (db : DB) (ar : Archive) (hchat : s.chat_id = none) :
    ((handle_research_message env run query s db ar).trace.take 3 =
      [TraceItem.beginResearch,
       TraceItem.db (DbOp.createChat env.new_chat_id (deriveTitle query)),
       TraceItem.db (DbOp.appendMessage env.new_chat_id "user" query none)]) ∧
    (query.length ≤ 50 → deriveTitle query = query) ∧
    (50 < query.length →
      (deriveTitle query).data = query.data.take 50 ++ ("...").data) := by
  have hcid : effectiveChatId env s = env.new_chat_id := by
    unfold effectiveChatId
    rw [hchat]
  refine ⟨?_, fun hle => ?_, fun hgt => ?_⟩
  · obtain ⟨st, res⟩ := run
    cases res <;>
      simp [handle_research_message, handleMid, handleChatOps, hchat, hcid,
            List.take_succ_cons, List.cons_append]
  · unfold deriveTitle
    rw [if_neg (by omega)]
  · unfold deriveTitle
    rw [if_pos hgt]
    rfl

/-- Witness for C7: a fresh session and the two-character query "hi". -/
theorem c7_first_message_title_witness :
    ((handle_research_message env0 runOk0 "hi" initSession db0 []).trace.take 3 =
      [TraceItem.beginResearch,
       TraceItem.db (DbOp.createChat env0.new_chat_id (deriveTitle "hi")),
       TraceItem.db (DbOp.appendMessage env0.new_chat_id "user" "hi" none)]) ∧
    deriveTitle "hi" = "hi" := by
  have h := c7_first_message_title env0 runOk0 "hi" initSession db0 [] rfl
  exact ⟨h.1, h.2.1 (by decide)⟩

/-- C8 counterexample: the claim says each streamed token is appended to the
session's bounded `accumulated_tokens` buffer.  Processing the token "x" on
a fresh handler and session leaves `accumulated_tokens` empty — the token
goes to the handler's own (unbounded) `buffer` list instead. -/
theorem c8_counterexample :
    (on_llm_new_token initHandler initSession "x").2.1.accumulated_tokens = [] ∧
    ¬ "x" ∈ (on_llm_new_token initHandler initSession "x").2.1.accumulated_tokens ∧
    (on_llm_new_token initHandler initSession "x").1.buffer = ["x"] ∧
    (on_llm_new_token initHandler initSession "x").2.2 = [OutEvent.token "x"] := by
  exact ⟨rfl, by simp [on_llm_new_token, initSession], rfl, rfl⟩

theorem runTokens_eq (toks : List String) (h : HandlerState) (s : SessionState) :
    runTokens toks h s =
      ({ h with buffer := h.buffer ++ toks }, s, toks.map OutEvent.token) := by
  induction toks generalizing h with
  | nil => simp [runTokens]
  | cons t rest ih =>
      simp [runTokens, on_llm_new_token, ih]

/-- C8 amended: each streamed token is emitted as a `token` event and
appended to the callback handler's own unbounded `buffer` list; the
session — in particular its bounded `accumulated_tokens` deque — is left
untouched by token streaming, so the deque's length never grows past its
fixed capacity of 1000. -/
theorem c8_tokens_to_handler_buffer (toks : List String) (h : HandlerState)
    (s : SessionState) :
    runTokens toks h s =
      ({ h with buffer := h.buffer ++ toks }, s, toks.map OutEvent.token) ∧
    (s.accumulated_tokens.length ≤ 1000 →
      (runTokens toks h s).2.1.accumulated_tokens.length ≤ 1000) := by
  refine ⟨runTokens_eq toks h s, fun hh => ?_⟩
  rw [runTokens_eq toks h s]
  exact hh

/-- Witness for C8's amended statement at two concrete tokens. -/
theorem c8_tokens_to_handler_buffer_witness :
    (runTokens ["a", "b"] initHandler initSession).2.1.accumulated_tokens.length
      ≤ 1000 :=
  (c8_tokens_to_handler_buffer ["a", "b"] initHandler initSession).2 (by decide)

/-- C9: a user `message` frame whose text strips to empty yields exactly one
assistant prompt-for-input message event; the database, the archive, the
close flag and the `is_researching` guard are untouched, and no research
invocation, chat creation or message persistence happens (the trace holds
nothing but the prompt event). -/
theorem c9_empty_query_prompt (env : RunEnv) (run : EngineRun) (f : InFrame)
    (c : ConnState) (h1 : f.ftype = some "message") (h2 : f.sender = some "user")
    (h3 : pyStrip (f.text.getD "") = "") :
    (processFrame env run f c).2 =
      [TraceItem.out (OutEvent.message "assistant" "Please provide a research query.")] ∧
    (processFrame env run f c).1.db = c.db ∧
    (processFrame env run f c).1.archive = c.archive ∧
    (processFrame env run f c).1.closed = c.closed ∧
    (processFrame env run f c).1.session.is_researching =
      c.session.is_researching := by
  have key : processFrame env run f c =
      ({ c with session := if pyTruthy f.chat_id
           then { c.session with chat_id := f.chat_id } else c.session },
       [TraceItem.out (OutEvent.message "assistant" "Please provide a research query.")]) := by
    unfold processFrame
    rw [if_neg (by simp [h1]), if_pos ⟨h1, h2⟩]
    dsimp only
    rw [h3, if_pos rfl]
  rw [key]
  refine ⟨rfl, rfl, rfl, rfl, ?_⟩
  dsimp only
  split <;> rfl

/-- Witness for C9: an empty-text user message frame on a fresh connection. -/
theorem c9_empty_query_prompt_witness :
    (processFrame env0 runOk0 ⟨some "message", some "user", some "", none⟩ conn0).2 =
      [TraceItem.out (OutEvent.message "assistant" "Please provide a research query.")] :=
  (c9_empty_query_prompt env0 runOk0 ⟨some "message", some "user", some "", none⟩
    conn0 rfl rfl (by decide)).1

/-- C10: a `select_chat` frame whose chat id is absent or empty leaves the
connection state (all `SessionState` fields included) entirely unchanged and
sends no outbound event. -/
theorem c10_select_chat_falsy_noop (env : RunEnv) (run : EngineRun) (f : InFrame)
    (c : ConnState) (h1 : f.ftype = some "select_chat")
    (h2 : f.chat_id = none ∨ f.chat_id = some "") :
    processFrame env run f c = (c, []) := by
  unfold processFrame
  rw [if_pos h1]
  rcases h2 with h2 | h2
  · rw [h2]
  · rw [h2]
    rfl

/-- Witness for C10: a `select_chat` frame with no chat id, and one with an
empty chat id, on a fresh connection. -/
theorem c10_select_chat_falsy_noop_witness :
    processFrame env0 runOk0 ⟨some "select_chat", none, none, none⟩ conn0 =
      (conn0, []) ∧
    processFrame env0 runOk0 ⟨some "select_chat", none, none, some ""⟩ conn0 =
      (conn0, []) :=
  ⟨c10_select_chat_falsy_noop env0 runOk0 _ conn0 rfl (Or.inl rfl),
   c10_select_chat_falsy_noop env0 runOk0 _ conn0 rfl (Or.inr rfl)⟩

/-- C2 counterexample: the claim says a malformed or unrecognized frame is
converted into a client-visible error event and the connection stays open.
In the code, an unrecognized frame type ("bogus") produces no outbound event
at all, and a malformed (non-JSON) frame makes `receive_json` raise: the
outer handler closes the websocket without emitting anything, and a
following `select_chat` frame is never processed. -/
theorem c2_counterexample :
    (runConn [(InMsg.json ⟨some "bogus", none, none, none⟩, env0, runOk0)] conn0).2
      = [] ∧
    (runConn [(InMsg.malformed, env0, runOk0),
              (InMsg.json ⟨some "select_chat", none, none, some "c9"⟩, env0, runOk0)]
        conn0).1.closed = true ∧
    (runConn [(InMsg.malformed, env0, runOk0),
              (InMsg.json ⟨some "select_chat", none, none, some "c9"⟩, env0, runOk0)]
        conn0).2 = [] :=
  ⟨rfl, rfl, rfl⟩

/-- C2 amended: a well-formed frame that matches no dispatch arm (its type is
not `select_chat` and it is not a user `message`) is silently ignored — no
outbound event, state unchanged, connection kept open for later frames —
while a frame on which JSON decoding fails terminates the receive loop: the
gateway closes the connection, emits no client-visible error event, and
processes no further frames. -/
theorem c2_decode_behaviour (env : RunEnv) (run : EngineRun) (f : InFrame)
    (c : ConnState) (rest : List (InMsg × RunEnv × EngineRun))
    (h1 : ¬ f.ftype = some "select_chat")
    (h2 : ¬ (f.ftype = some "message" ∧ f.sender = some "user")) :
    processFrame env run f c = (c, []) ∧
    runConn ((InMsg.malformed, env, run) :: rest) c =
      ({ c with closed := true }, []) := by
  constructor
  · unfold processFrame
    rw [if_neg h1, if_neg h2]
  · rfl

/-- Witness for C2's amended statement at a concrete unrecognized frame. -/
theorem c2_decode_behaviour_witness :
    processFrame env0 runOk0 ⟨some "bogus", none, none, none⟩ conn0 = (conn0, []) :=
  (c2_decode_behaviour env0 runOk0 ⟨some "bogus", none, none, none⟩ conn0 []
    (by decide) (by decide)).1

/-- C3: on normal engine completion the gateway emits `stream_end`, appends
exactly one assistant message row for the invocation (right after the user
row), that row carries the report path, the completed event carries the
report body and the same path, and the archived artifact at that path is
the fixed structured header (query, date, chat id) followed by exactly the
body delivered in the completed event. -/
theorem c3_completion (env : RunEnv) (run : EngineRun) (query : String)
    (s : SessionState) (db : DB) (ar : Archive) (report : String)
    (notes : List String) (hres : run.result = .ok report notes) :
    TraceItem.out (OutEvent.stream_end "assistant") ∈
      (handle_research_message env run query s db ar).trace ∧
    (handle_research_message env run query s db ar).db.messages =
      db.messages ++
        [⟨env.user_msg_id, effectiveChatId env s, "user", query, env.now, none⟩,
         ⟨env.asst_msg_id, effectiveChatId env s, "assistant", transcriptOf report,
          env.now, some (reportFilepath (effectiveChatId env s) env.ts)⟩] ∧
    TraceItem.out (OutEvent.research_completed report
        (reportFilepath (effectiveChatId env s) env.ts)) ∈
      (handle_research_message env run query s db ar).trace ∧
    archiveRead (handle_research_message env run query s db ar).archive
        (reportFilepath (effectiveChatId env s) env.ts) =
      some (reportHeader query env.date (effectiveChatId env s) ++ report) := by
  obtain ⟨st, res⟩ := run
  dsimp only at hres
  subst hres
  refine ⟨?_, ?_, ?_, ?_⟩
  · simp [handle_research_message, handleTailOk]
  · by_cases hc : s.chat_id = none <;>
      simp [handle_research_message, save_message, save_chat, hc]
  · simp [handle_research_message, handleTailOk]
  · simp [handle_research_message, archiveRead]

/-- Witness for C3: a fresh session, empty store, query "q", successful
engine run returning "REPORT". -/
theorem c3_completion_witness :
    archiveRead (handle_research_message env0 runOk0 "q" initSession db0 []).archive
        (reportFilepath (effectiveChatId env0 initSession) env0.ts) =
      some (reportHeader "q" env0.date (effectiveChatId env0 initSession) ++ "REPORT") :=
  (c3_completion env0 runOk0 "q" initSession db0 [] "REPORT" [] rfl).2.2.2

/-- C4: when the engine raises, the gateway emits an error event carrying
the failure description plus `stream_end`, appends one assistant message row
describing the error with no report path, resets `is_researching` to false,
archives nothing, and no dispatch path ever sets the connection's close
flag — the session keeps accepting frames. -/
theorem c4_engine_failure (env : RunEnv) (run : EngineRun) (query : String)
    (s : SessionState) (db : DB) (ar : Archive) (m : String)
    (hres : run.result = .err m) :
    (handle_research_message env run query s db ar).session.is_researching = false ∧
    TraceItem.out (OutEvent.stream "error" ("\n❌ **Error:** " ++ m ++ "\n")) ∈
      (handle_research_message env run query s db ar).trace ∧
    TraceItem.out (OutEvent.stream_end "assistant") ∈
      (handle_research_message env run query s db ar).trace ∧
    (handle_research_message env run query s db ar).db.messages =
      db.messages ++
        [⟨env.user_msg_id, effectiveChatId env s, "user", query, env.now, none⟩,
         ⟨env.asst_msg_id, effectiveChatId env s, "assistant",
          "Error during research: " ++ m, env.now, none⟩] ∧
    (handle_research_message env run query s db ar).archive = ar ∧
    (∀ f c, (processFrame env run f c).1.closed = c.closed) := by
  obtain ⟨st, res⟩ := run
  dsimp only at hres
  subst hres
  refine ⟨rfl, ?_, ?_, ?_, rfl, fun f c => processFrame_closed env _ f c⟩
  · simp [handle_research_message, handleTailErr]
  · simp [handle_research_message, handleTailErr]
  · by_cases hc : s.chat_id = none <;>
      simp [handle_research_message, save_message, save_chat, hc]

/-- Witness for C4: a fresh session, empty store, query "q", engine raising
"boom". -/
theorem c4_engine_failure_witness :
    (handle_research_message env0 runErr0 "q" initSession db0 []).session.is_researching
      = false :=
  (c4_engine_failure env0 runErr0 "q" initSession db0 [] "boom" rfl).1

/-- C1: over any sequence of inbound frames on one connection, research
invocations never overlap.  In the observable trace: every run that starts
also completes, at every instant the number of activations exceeds the
number of completions by at most one (at most one invocation is in the
Researching state), and an activation (`is_researching` flipping
false→true) happens only at instants where every earlier activation has
completed.  The `is_researching` guard is back to false after the whole
frame sequence, so a second user message arriving mid-run is handled
strictly after the current run completes — the receive loop awaits the
handler, queueing later frames for sequential execution. -/
theorem c1_single_inflight (msgs : List (InMsg × RunEnv × EngineRun))
    (c : ConnState) :
    (c.session.is_researching = false →
      (runConn msgs c).1.session.is_researching = false) ∧
    beginCount (runConn msgs c).2 = endCount (runConn msgs c).2 ∧
    (∀ i, endCount ((runConn msgs c).2.take i) ≤
            beginCount ((runConn msgs c).2.take i) ∧
          beginCount ((runConn msgs c).2.take i) ≤
            endCount ((runConn msgs c).2.take i) + 1) ∧
    (∀ i, beginCount ((runConn msgs c).2.take i) + 1 =
            beginCount ((runConn msgs c).2.take (i + 1)) →
          beginCount ((runConn msgs c).2.take i) =
            endCount ((runConn msgs c).2.take i)) := by
  obtain ⟨h0, h1, h2⟩ := bp_runConn msgs c
  exact ⟨fun h => runConn_research_false msgs c h, h0, h1, h2⟩

/-- Witness for C1: one research-triggering user message on a fresh
connection; the activation at instant 0 happens with zero outstanding
runs, and the guard is false once the frame sequence is processed. -/
theorem c1_single_inflight_witness :
    (runConn [(InMsg.json ⟨some "message", some "user", some "hi", none⟩,
        env0, runOk0)] conn0).1.session.is_researching = false ∧
    beginCount ((runConn [(InMsg.json ⟨some "message", some "user", some "hi", none⟩,
        env0, runOk0)] conn0).2.take 0) =
      endCount ((runConn [(InMsg.json ⟨some "message", some "user", some "hi", none⟩,
        env0, runOk0)] conn0).2.take 0) := by
  refine ⟨(c1_single_inflight _ conn0).1 rfl, ?_⟩
  exact (c1_single_inflight _ conn0).2.2.2 0 (by decide)
